import Mathlib

/-!
Shallow embedding of the transformation-orchestration core of the
coordinates-transformation-api repository
(src/coordinate_transformation_api/crs_transform.py and the
infinite-coordinate policy of src/coordinate_transformation_api/main.py),
together with theorems settling the frozen claims about it.

Machine floats of the Python source are modelled by exact rationals; the
infinite-value policy of main.py, which genuinely distinguishes finite
values from the two IEEE infinities, is modelled by a dedicated value type
with explicit positive/negative infinity constructors.  The geodetic
library (pyproj) is an external collaborator: its CRS and Transformer
objects are modelled by the fields the embedded code reads, and the ranked
candidate list produced by `transformer.TransformerGroup` is an oracle
parameter `lib`.  Python `round` is an oracle parameter `pyRound`.
-/

namespace CTA

/-- constants.py -/
def TWO_DIMENSIONAL : Nat := 2

/-- constants.py -/
def THREE_DIMENSIONAL : Nat := 3

/-- crs_transform.py module constant -/
def HORIZONTAL_AXIS_LENGTH : Nat := 2

/-- crs_transform.py module constant -/
def VERTICAL_AXIS_LENGTH : Nat := 1

/-- A pyproj datum, as read by `needs_epoch` (only its `type_name`). -/
structure Datum where
  type_name : String
deriving DecidableEq, Repr

/-- A pyproj CRS, restricted to the fields the embedded code reads:
`axis_info` (only its length matters, one entry per axis), `to_authority()`
(`none` when pyproj cannot identify the CRS by authority:code),
`is_compound`, `is_geocentric`, `sub_crs_list`, `datum`, and the `str()`
rendering used in error messages.  `obj_id` models CPython object identity,
which the source consults with `source_crs is not target_crs`. -/
inductive CRS where
  | mk (axis_info : List String) (to_authority : Option (String × String))
       (is_compound : Bool) (is_geocentric : Bool)
       (sub_crs_list : List CRS) (datum : Option Datum) (crs_str : String)
       (obj_id : Nat)

def CRS.axis_info : CRS → List String
  | .mk a _ _ _ _ _ _ _ => a

def CRS.to_authority : CRS → Option (String × String)
  | .mk _ au _ _ _ _ _ _ => au

def CRS.is_compound : CRS → Bool
  | .mk _ _ c _ _ _ _ _ => c

def CRS.is_geocentric : CRS → Bool
  | .mk _ _ _ g _ _ _ _ => g

def CRS.sub_crs_list : CRS → List CRS
  | .mk _ _ _ _ s _ _ _ => s

def CRS.datum : CRS → Option Datum
  | .mk _ _ _ _ _ d _ _ => d

def CRS.crs_str : CRS → String
  | .mk _ _ _ _ _ _ s _ => s

def CRS.obj_id : CRS → Nat
  | .mk _ _ _ _ _ _ _ i => i

/-- A pyproj coordinate operation, as read by `needs_epoch`. -/
structure Operation where
  type_name : String
  method_code : String
deriving DecidableEq, Repr

/-- A pyproj Transformer: the fields the embedded code reads, plus the
coordinate-transform primitive itself (an opaque external computation;
its arguments may contain Python `None`, modelled by `Option`). -/
structure Transformer where
  source_crs : Option CRS
  target_crs : Option CRS
  operations : Option (List Operation)
  transform : List (Option ℚ) → List ℚ

/-- The error values the embedded code can raise.
`transformationNotPossible` keeps the constructor arguments of
`TransformationNotPossibleError(src_crs, target_crs, reason)`, whose
message is `f"Transformation not possible between {src} and {target}, {reason}"`;
the reason defaults to "no transformation path available" (models.py).
`typeError` models the `TypeError` Python raises when
`"{}:{}".format(*crs.to_authority())` unpacks `None`. -/
inductive Err where
  | transformationNotPossible (src_crs target_crs reason : String)
  | unknownCrs
  | valueError (msg : String)
  | typeError (msg : String)
deriving DecidableEq, Repr

/-- Default reason of TransformationNotPossibleError (models.py line 42). -/
def NO_PATH_REASON : String := "no transformation path available"

/-- One value of the `CRS_CONFIG` mapping loaded from assets/config.yaml:
the embedded code reads only its "exclude-transformations" list. -/
structure CrsConfigEntry where
  exclude_transformations : List String
deriving DecidableEq, Repr

/-- The `CRS_CONFIG` dictionary: association list keyed by source CRS
identifier string. -/
def CrsConfig : Type := List (String × CrsConfigEntry)

/-- crs_transform.py `exclude_transformation`:
`source_crs_str in CRS_CONFIG and target_crs_str in CRS_CONFIG[source_crs_str]["exclude-transformations"]`. -/
def exclude_transformation (cfg : CrsConfig) (source_crs_str target_crs_str : String) : Bool :=
  match List.lookup source_crs_str cfg with
  | some entry => target_crs_str ∈ entry.exclude_transformations
  | none => false

/-- crs_transform.py `needs_epoch`: true when the transformer's target CRS
datum is a dynamic geodetic reference frame, or any of its operations is a
Transformation whose method code is in the hardcoded time-dependent /
time-specific list. -/
def needs_epoch (tf : Transformer) : Bool :=
  let time_coordinate_operation_methodes : List String :=
    ["1053", "1054", "1056", "1057"] ++ ["1065", "1066"]
  let from_dynamic_datum : Bool :=
    match tf.target_crs with
    | some tc =>
      match tc.datum with
      | some d => d.type_name = "Dynamic Geodetic Reference Frame"
      | none => false
    | none => false
  let from_operations : Bool :=
    match tf.operations with
    | some ops =>
      ops.any fun operation =>
        operation.type_name = "Transformation" &&
          operation.method_code ∈ time_coordinate_operation_methodes
    | none => false
  from_dynamic_datum || from_operations

/-- crs_transform.py `check_axis`: raise TransformationNotPossibleError when
the source CRS has fewer axes than the target CRS. -/
def check_axis (s_crs t_crs : CRS) : Except Err Unit :=
  if s_crs.axis_info.length < t_crs.axis_info.length then
    Except.error (Err.transformationNotPossible s_crs.crs_str t_crs.crs_str
      ("number of dimensions source-crs: " ++ toString s_crs.axis_info.length ++
       ", number of dimensions target-crs: " ++ toString t_crs.axis_info.length))
  else Except.ok ()

/-- Python `"{}:{}".format(*crs.to_authority())`: raises TypeError when
`to_authority()` returns `None`. -/
def format_authority (crs : CRS) : Except Err String :=
  match crs.to_authority with
  | some (auth, code) => Except.ok (auth ++ ":" ++ code)
  | none => Except.error (Err.typeError "argument list unpacking of NoneType")

/-- The ranked candidate list `transformer.TransformerGroup(source, target,
allow_ballpark=False, always_xy=True).transformers` of the geodetic library,
treated as an external oracle. -/
def TransformerOracle : Type := CRS → CRS → List Transformer

/-- crs_transform.py `get_transformer`: axis check, exclusion check, ranked
candidate lookup, then the epoch-gating policy over the ranked list. -/
def get_transformer (lib : TransformerOracle) (cfg : CrsConfig)
    (source_crs target_crs : CRS) (epoch : Option ℚ) : Except Err Transformer := do
  check_axis source_crs target_crs
  let source_auth ← format_authority source_crs
  let target_auth ← format_authority target_crs
  if exclude_transformation cfg source_auth target_auth then
    Except.error (Err.transformationNotPossible source_auth target_auth NO_PATH_REASON)
  else
    match lib source_crs target_crs with
    | [] =>
      Except.error (Err.transformationNotPossible source_crs.crs_str target_crs.crs_str
        NO_PATH_REASON)
    | tf0 :: rest =>
      match epoch, List.find? (fun tf => !(needs_epoch tf)) (tf0 :: rest) with
      | none, some tf => Except.ok tf
      | _, _ =>
        if needs_epoch tf0 && epoch.isNone then
          Except.error (Err.transformationNotPossible source_crs.crs_str target_crs.crs_str
            "Transformation is not possible without an input epoch")
        else Except.ok tf0

/-- crs_transform.py `get_individual_crs_from_compound`: both legs start as
the compound CRS itself and are replaced by the last sub-CRS with 2 (resp. 1)
axes, if any. -/
def get_individual_crs_from_compound (compound_crs : CRS) : CRS × CRS :=
  compound_crs.sub_crs_list.foldl
    (fun hv crs =>
      if crs.axis_info.length = HORIZONTAL_AXIS_LENGTH then (crs, hv.2)
      else if crs.axis_info.length = VERTICAL_AXIS_LENGTH then (hv.1, crs)
      else hv)
    (compound_crs, compound_crs)

/-- crs_transform.py `build_input_coord`: 2D input with an epoch gets a 0.0
height placeholder before the epoch; otherwise the epoch (for 3D input with
an epoch) or Python `None` is appended. -/
def build_input_coord (coord : List ℚ) (epoch : Option ℚ) : List (Option ℚ) :=
  if coord.length = TWO_DIMENSIONAL ∧ epoch.isSome then
    coord.map some ++ [some 0, epoch]
  else
    coord.map some ++
      [if coord.length = THREE_DIMENSIONAL ∧ epoch.isSome then epoch else none]

/-- Python's built-in `round(val, ndigits)` on floats, treated as an external
oracle (the embedded code never inspects its result). -/
def RoundOracle : Type := ℚ → ℤ → ℚ

/-- crs_transform.py `my_round` (inner helper of `get_transform_crs_fun`). -/
def my_round (pyRound : RoundOracle) (val : ℚ) (precision : Option ℤ) : ℚ :=
  match precision with
  | none => val
  | some p => pyRound val p

/-- The input construction of the inner closure `transform_compound_crs`:
`tuple([*val, float(epoch)]) if epoch is not None else tuple([*val])` — the
epoch is appended directly, with no height padding. -/
def compound_input (epoch : Option ℚ) (val : List ℚ) : List (Option ℚ) :=
  match epoch with
  | some e => val.map some ++ [some e]
  | none => val.map some

/-- crs_transform.py inner closure `transform_compound_crs` of
`get_transform_crs_fun` (lambda-lifted; `heightDigits` is the
HEIGHT_DIGITS_FOR_ROUNDING constant it closes over): both transformers are
applied to the same input — the position with the epoch appended directly
when present — and the rounded horizontal x,y is concatenated with the
rounded vertical z via `h[0:2] + v[2:3]`. -/
def transform_compound_crs (pyRound : RoundOracle) (heightDigits : ℤ)
    (h_transformer v_transformer : Transformer) (precision : Option ℤ)
    (epoch : Option ℚ) (val : List ℚ) : List ℚ :=
  let input := compound_input epoch val
  let h := (h_transformer.transform input).map
    (fun x => my_round pyRound x precision)
  let v := (v_transformer.transform input).map
    (fun x => my_round pyRound x (some heightDigits))
  h.take 2 ++ ((v.drop 2).take 1)

/-- crs_transform.py inner closure `transform_crs` of
`get_transform_crs_fun` (lambda-lifted): per-position simple transform with
the (unsatisfiable) defensive dimension guard
`TWO_DIMENSIONAL > dim > THREE_DIMENSIONAL`, input construction through
`build_input_coord`, truncation of the transformer output to `dim`
ordinates, and rounding (height rounded separately). -/
def transform_crs (lib : TransformerOracle) (cfg : CrsConfig)
    (pyRound : RoundOracle) (heightDigits : ℤ) (source_crs target_crs : CRS)
    (precision : Option ℤ) (epoch : Option ℚ) (val : List ℚ) :
    Except Err (List ℚ) := do
  let transformer ← get_transformer lib cfg source_crs target_crs epoch
  match transformer.target_crs with
  | none => Except.error (Err.valueError "transformer.target_crs is None")
  | some target =>
    let dim := target.axis_info.length
    if dim ≠ val.length ∧ TWO_DIMENSIONAL > dim ∧ dim > THREE_DIMENSIONAL then
      Except.error (Err.valueError
        ("dimension of target-crs should be 2 or 3, is " ++ toString dim))
    else
      let input := build_input_coord val epoch
      let output := ((transformer.transform input).take dim).map
        (fun x => my_round pyRound x precision)
      if output.length ≥ THREE_DIMENSIONAL then
        let height := my_round pyRound (((output.drop 2).take 1).headI) (some heightDigits)
        Except.ok (output.take 2 ++ [height])
      else Except.ok output

/-- Condition of the inline `raise UnknownCrsError()` guard on the vertical
transformer in `get_transform_crs_fun`:
`v_transformer.source_crs is not None and v_transformer.source_crs.to_authority() is None`. -/
def vertical_source_unidentified (v_transformer : Transformer) : Bool :=
  match v_transformer.source_crs with
  | some sc => sc.to_authority.isNone
  | none => false

/-- crs_transform.py `get_transform_crs_fun`: for a compound target CRS and a
non-geocentric source (distinct objects), split the compound, select the
horizontal and vertical transformers (the vertical selection falling back to
the whole compound pair on TransformationNotPossibleError/UnknownCrsError)
and return the combined closure; otherwise return the simple `transform_crs`
closure. -/
def get_transform_crs_fun (lib : TransformerOracle) (cfg : CrsConfig)
    (pyRound : RoundOracle) (heightDigits : ℤ) (source_crs target_crs : CRS)
    (precision : Option ℤ) (epoch : Option ℚ) :
    Except Err (List ℚ → Except Err (List ℚ)) :=
  if source_crs.obj_id ≠ target_crs.obj_id ∧ target_crs.is_compound ∧
      ¬source_crs.is_geocentric then
    match check_axis source_crs target_crs with
    | Except.error e => Except.error e
    | Except.ok _ =>
      let tsplit := get_individual_crs_from_compound target_crs
      let target_crs_horizontal := tsplit.1
      let target_crs_vertical := tsplit.2
      let ssplit :=
        if source_crs.is_compound then get_individual_crs_from_compound source_crs
        else (source_crs, source_crs)
      let source_crs_horizontal := ssplit.1
      let source_crs_vertical := ssplit.2
      match get_transformer lib cfg source_crs_horizontal target_crs_horizontal epoch with
      | Except.error e => Except.error e
      | Except.ok h_transformer =>
        let v_attempt : Except Err Transformer :=
          match get_transformer lib cfg source_crs_vertical target_crs_vertical epoch with
          | Except.ok v =>
            if vertical_source_unidentified v then Except.error Err.unknownCrs
            else Except.ok v
          | Except.error e => Except.error e
        let v_selected : Except Err Transformer :=
          match v_attempt with
          | Except.ok v => Except.ok v
          | Except.error (Err.transformationNotPossible _ _ _) =>
            get_transformer lib cfg source_crs target_crs epoch
          | Except.error Err.unknownCrs =>
            get_transformer lib cfg source_crs target_crs epoch
          | Except.error e => Except.error e
        match v_selected with
        | Except.error e => Except.error e
        | Except.ok v_transformer =>
          Except.ok fun val =>
            Except.ok (transform_compound_crs pyRound heightDigits h_transformer
              v_transformer precision epoch val)
  else
    Except.ok fun val =>
      transform_crs lib cfg pyRound heightDigits source_crs target_crs precision epoch val

/-- A node of a nested GeoJSON coordinates object: a plain number or a
nested list, as discriminated by the `isinstance(e, (float, int))` test of
`explode`. -/
inductive Coords where
  | num (q : ℚ)
  | arr (l : List Coords)
deriving Repr

/-- crs_transform.py `explode`, with the generator state made explicit:
`orig` is the list being iterated (yielded whole as soon as one of its
elements is a number, then the iteration breaks), `cur` is the remaining
iteration suffix. -/
def explodeArr (orig : List Coords) (cur : List Coords) : List (List Coords) :=
  match cur with
  | [] => []
  | Coords.num _ :: _ => [orig]
  | Coords.arr l :: rest => explodeArr l l ++ explodeArr orig rest
termination_by sizeOf cur
decreasing_by
  all_goals simp_wf
  all_goals omega

/-- crs_transform.py `explode` on a coordinates list. -/
def explode (coords : List Coords) : List (List Coords) :=
  explodeArr coords coords

/-- Python `list(zip(*rows))`: transpose truncated to the shortest row;
`zip()` of no iterables is empty. -/
def pyZipStar (rows : List (List Coords)) : List (List Coords) :=
  match rows with
  | [] => []
  | r :: rs =>
    if h : (r :: rs).all (fun l => !l.isEmpty) then
      (r :: rs).filterMap List.head? :: pyZipStar ((r :: rs).map List.tail)
    else []
termination_by (rows.map List.length).sum
decreasing_by
  simp_wf
  simp only [List.all_cons, Bool.and_eq_true, Bool.not_eq_true'] at h
  obtain ⟨hr, hrest⟩ := h
  clear hrest
  have hr1 : 1 ≤ r.length := by
    cases r with
    | nil => simp at hr
    | cons a as => simp
  have hmono : (List.map (List.length ∘ List.tail) rs).sum ≤
      (List.map List.length rs).sum := by
    induction rs with
    | nil => simp
    | cons b bs ih =>
      simp only [List.map_cons, List.sum_cons]
      have hb : (List.length ∘ List.tail) b = b.length - 1 := by
        simp [List.length_tail]
      omega
  omega

/-- Python `min` over a tuple of numbers: ValueError on an empty sequence. -/
def pyMin (l : List ℚ) : Except String ℚ :=
  match l with
  | [] => Except.error "min() arg is an empty sequence"
  | x :: xs => Except.ok (xs.foldl min x)

/-- Python `max` over a tuple of numbers: ValueError on an empty sequence. -/
def pyMax (l : List ℚ) : Except String ℚ :=
  match l with
  | [] => Except.error "max() arg is an empty sequence"
  | x :: xs => Except.ok (xs.foldl max x)

/-- Reading every member of a zipped column as a number; a non-numeric
member makes the Python `min`/`max` comparison raise TypeError. -/
def column_nums (col : List Coords) : Except String (List ℚ) :=
  col.mapM fun c =>
    match c with
    | Coords.num q => Except.ok q
    | Coords.arr _ => Except.error "'<' not supported between instances"

/-- crs_transform.py `get_bbox_from_coordinates`: columnwise zip of the
exploded positions, then the 2D envelope, the 3D envelope, or a
dimensionality ValueError, by the number of columns. -/
def get_bbox_from_coordinates (coordinates : List Coords) : Except String (List ℚ) :=
  let coordinate_tuples := pyZipStar (explode coordinates)
  if coordinate_tuples.length = TWO_DIMENSIONAL then do
    let x ← column_nums (coordinate_tuples.getD 0 [])
    let y ← column_nums (coordinate_tuples.getD 1 [])
    let xmin ← pyMin x
    let ymin ← pyMin y
    let xmax ← pyMax x
    let ymax ← pyMax y
    Except.ok [xmin, ymin, xmax, ymax]
  else if coordinate_tuples.length = THREE_DIMENSIONAL then do
    let x ← column_nums (coordinate_tuples.getD 0 [])
    let y ← column_nums (coordinate_tuples.getD 1 [])
    let z ← column_nums (coordinate_tuples.getD 2 [])
    let xmin ← pyMin x
    let ymin ← pyMin y
    let zmin ← pyMin z
    let xmax ← pyMax x
    let ymax ← pyMax y
    let zmax ← pyMax z
    Except.ok [xmin, ymin, zmin, xmax, ymax, zmax]
  else
    Except.error ("expected dimension of coordinates is either 2 or 3, got " ++
      toString coordinate_tuples.length)

/-- A Python float as the infinite-value policy of main.py distinguishes
them: a finite value, positive infinity, or negative infinity. -/
inductive PyVal where
  | fin (q : ℚ)
  | pinf
  | ninf
deriving DecidableEq, Repr

/-- Python `abs` on such a value. -/
def pyAbs : PyVal → PyVal
  | PyVal.fin q => PyVal.fin |q|
  | PyVal.pinf => PyVal.pinf
  | PyVal.ninf => PyVal.pinf

/-- The error raised by util.py `raise_response_validation_error`. -/
structure ResponseValidationError where
  message : String
  location : List String
deriving DecidableEq, Repr

/-- main.py `transform` endpoint, lines 378-387: drop the height ordinate
from a 3-ordinate result when it equals `float("inf")`, then reject the
result when any remaining ordinate has infinite absolute value. -/
def handle_infinite_coordinates (transformed_coordinates : List PyVal) :
    Except ResponseValidationError (List PyVal) :=
  let transformed_coordinates :=
    if transformed_coordinates.length = THREE_DIMENSIONAL ∧
        transformed_coordinates.getD 2 (PyVal.fin 0) = PyVal.pinf then
      transformed_coordinates.take 2
    else transformed_coordinates
  if transformed_coordinates.any (fun x => pyAbs x = PyVal.pinf) then
    Except.error
      { message := "Out of range float values are not JSON compliant",
        location := ["responseBody"] }
  else Except.ok transformed_coordinates

/-! ## Unfolding lemmas for the recursive embeddings -/

@[simp]
lemma explodeArr_nil (orig : List Coords) : explodeArr orig [] = [] := by
  rw [explodeArr]

@[simp]
lemma explodeArr_num (orig : List Coords) (q : ℚ) (rest : List Coords) :
    explodeArr orig (Coords.num q :: rest) = [orig] := by
  rw [explodeArr]

@[simp]
lemma explodeArr_arr (orig : List Coords) (l rest : List Coords) :
    explodeArr orig (Coords.arr l :: rest) =
      explodeArr l l ++ explodeArr orig rest := by
  rw [explodeArr]

@[simp]
lemma pyZipStar_nil : pyZipStar [] = [] := by
  rw [pyZipStar]

lemma pyZipStar_cons (r : List Coords) (rs : List (List Coords)) :
    pyZipStar (r :: rs) =
      if (r :: rs).all (fun l => !l.isEmpty) then
        (r :: rs).filterMap List.head? :: pyZipStar ((r :: rs).map List.tail)
      else [] := by
  rw [pyZipStar]
  split <;> simp_all

/-! ## Spec-side helpers used in theorem statements -/

/-- Minimum of a nonempty list of rationals, as Python `min` computes it. -/
def listMin : List ℚ → ℚ
  | [] => 0
  | x :: xs => xs.foldl min x

/-- Maximum of a nonempty list of rationals, as Python `max` computes it. -/
def listMax : List ℚ → ℚ
  | [] => 0
  | x :: xs => xs.foldl max x

/-- The i-th ordinate column of a list of numeric positions. -/
def column (qs : List (List ℚ)) (i : Nat) : List ℚ :=
  qs.map (fun q => q.getD i 0)

/-! ## Concrete objects used by witnesses and counterexamples -/

/-- A 2-axis projected CRS (EPSG:28992 shaped). -/
def demoCrs2D : CRS :=
  CRS.mk ["Easting", "Northing"] (some ("EPSG", "28992")) false false [] none
    "EPSG:28992" 1

/-- A 3-axis CRS (EPSG:7415 shaped compound: RD + NAP). -/
def demoCrs3D : CRS :=
  CRS.mk ["Easting", "Northing", "Height"] (some ("EPSG", "7415")) true false
    [demoCrs2D, CRS.mk ["Height"] (some ("EPSG", "5709")) false false [] none
      "EPSG:5709" 2]
    none "EPSG:7415" 3

/-- A 3-axis geographic CRS with a dynamic datum target (ETRS89-shaped). -/
def demoCrsDyn : CRS :=
  CRS.mk ["Lon", "Lat", "Height"] (some ("EPSG", "7931")) false false []
    (some { type_name := "Dynamic Geodetic Reference Frame" }) "EPSG:7931" 4

/-- A transformer that needs an epoch (dynamic target datum). -/
def demoTfDyn : Transformer :=
  { source_crs := some demoCrs3D, target_crs := some demoCrsDyn,
    operations := some [{ type_name := "Transformation", method_code := "1053" }],
    transform := fun input => input.map (fun o => o.getD 0) }

/-- A transformer that does not need an epoch. -/
def demoTfStatic : Transformer :=
  { source_crs := some demoCrs3D, target_crs := some demoCrs2D,
    operations := some [{ type_name := "Conversion", method_code := "9807" }],
    transform := fun input => input.map (fun o => o.getD 0) }

/-- An oracle ranking the epoch-dependent transformer first. -/
def demoLib : TransformerOracle := fun _ _ => [demoTfDyn, demoTfStatic]

/-- An empty exclusion configuration. -/
def demoCfgEmpty : CrsConfig := []

/-- Python `round` oracle used in concrete instantiations. -/
def demoRound : RoundOracle := fun q _ => q

@[simp]
lemma error_bind {ε α β : Type} (e : ε) (f : α → Except ε β) :
    (Except.error e >>= f) = Except.error e := rfl

@[simp]
lemma ok_bind {ε α β : Type} (a : α) (f : α → Except ε β) :
    ((Except.ok a : Except ε α) >>= f) = f a := rfl

/-! ## Claims -/

/-- Claim C7: `build_input_coord` maps a 2D coordinate with an epoch to
`(x, y, 0.0, epoch)`, a 3D coordinate with an epoch to `(x, y, z, epoch)`,
and any coordinate without an epoch to the coordinate with `None` appended;
in particular `build_input_coord((1000.0, 1000.0), 2000.0) ==
(1000.0, 1000.0, 0.0, 2000.0)` and
`build_input_coord((1000.0, 1000.0, 10.0), None) == (1000.0, 1000.0, 10.0, None)`. -/
theorem build_input_coord_spec :
    (∀ x y e : ℚ, build_input_coord [x, y] (some e) =
      [some x, some y, some 0, some e]) ∧
    (∀ x y z e : ℚ, build_input_coord [x, y, z] (some e) =
      [some x, some y, some z, some e]) ∧
    (∀ coord : List ℚ, build_input_coord coord none = coord.map some ++ [none]) ∧
    build_input_coord [1000, 1000] (some 2000) =
      [some 1000, some 1000, some 0, some 2000] ∧
    build_input_coord [1000, 1000, 10] none =
      [some 1000, some 1000, some 10, none] := by
  refine ⟨?_, ?_, ?_, ?_, ?_⟩
  · intro x y e
    simp [build_input_coord, TWO_DIMENSIONAL]
  · intro x y z e
    simp [build_input_coord, TWO_DIMENSIONAL, THREE_DIMENSIONAL]
  · intro coord
    simp [build_input_coord]
  · simp [build_input_coord, TWO_DIMENSIONAL]
  · simp [build_input_coord]

/-- Claim C6: whenever the source CRS has strictly fewer axes than the
target CRS, `get_transformer` fails with a TransformationNotPossibleError
built by `check_axis`, for every candidate oracle, exclusion configuration
and epoch — the failure happens before any candidate is consulted. -/
theorem axis_check_monotonicity (lib : TransformerOracle) (cfg : CrsConfig)
    (source_crs target_crs : CRS) (epoch : Option ℚ)
    (hax : source_crs.axis_info.length < target_crs.axis_info.length) :
    get_transformer lib cfg source_crs target_crs epoch =
      Except.error (Err.transformationNotPossible source_crs.crs_str
        target_crs.crs_str
        ("number of dimensions source-crs: " ++
          toString source_crs.axis_info.length ++
          ", number of dimensions target-crs: " ++
          toString target_crs.axis_info.length)) := by
  unfold get_transformer check_axis
  simp [hax]

/-- Witness for C6 at a concrete input: a 2-axis source and a 3-axis
target are rejected whatever the epoch. -/
theorem axis_check_monotonicity_witness :
    get_transformer demoLib demoCfgEmpty demoCrs2D demoCrs3D (some 2010) =
      Except.error (Err.transformationNotPossible "EPSG:28992" "EPSG:7415"
        ("number of dimensions source-crs: 2, number of dimensions target-crs: 3")) := by
  have h := axis_check_monotonicity demoLib demoCfgEmpty demoCrs2D demoCrs3D
    (some 2010) (by decide)
  simpa [demoCrs2D, demoCrs3D, CRS.crs_str, CRS.axis_info] using h

/-- A compound CRS whose sub-CRS list has neither a 2-axis nor a 1-axis
member (its only sub-CRS has 3 axes). -/
def demoCompoundNoLegs : CRS :=
  CRS.mk ["Lon", "Lat", "Height"] (some ("NSGI", "DEMO")) true false
    [CRS.mk ["Lon", "Lat", "Height"] (some ("EPSG", "4979")) false false [] none
      "EPSG:4979" 5]
    none "NSGI:DEMO" 6

/-- Counterexample to claim C5 as stated: for a compound CRS whose sub-CRS
list has no 2-axis member and no 1-axis member, the decomposition does not
propagate any error — `get_individual_crs_from_compound` is total and
returns the compound CRS itself for both legs. -/
theorem compound_split_no_error_counterexample :
    get_individual_crs_from_compound demoCompoundNoLegs =
      (demoCompoundNoLegs, demoCompoundNoLegs) ∧
    (∀ sub ∈ demoCompoundNoLegs.sub_crs_list,
      sub.axis_info.length ≠ HORIZONTAL_AXIS_LENGTH ∧
      sub.axis_info.length ≠ VERTICAL_AXIS_LENGTH) := by
  constructor
  · rfl
  · intro sub hsub
    simp only [demoCompoundNoLegs, CRS.sub_crs_list, List.mem_singleton] at hsub
    subst hsub
    constructor
    · simp [CRS.axis_info, HORIZONTAL_AXIS_LENGTH]
    · simp [CRS.axis_info, VERTICAL_AXIS_LENGTH]

/-- Claim C5, amended: the splitter never substitutes a guessed sub-CRS —
when the sub-CRS list has no 2-axis (resp. no 1-axis) member, the
horizontal (resp. vertical) leg stays the compound CRS itself, so any
failure can only arise from the subsequent transformer selection on that
compound pair. -/
theorem compound_split_defaults (compound_crs : CRS) :
    ((∀ sub ∈ compound_crs.sub_crs_list,
        sub.axis_info.length ≠ HORIZONTAL_AXIS_LENGTH) →
      (get_individual_crs_from_compound compound_crs).1 = compound_crs) ∧
    ((∀ sub ∈ compound_crs.sub_crs_list,
        sub.axis_info.length ≠ VERTICAL_AXIS_LENGTH) →
      (get_individual_crs_from_compound compound_crs).2 = compound_crs) := by
  unfold get_individual_crs_from_compound
  constructor
  · intro h
    suffices H : ∀ (l : List CRS) (init : CRS × CRS),
        (∀ sub ∈ l, sub.axis_info.length ≠ HORIZONTAL_AXIS_LENGTH) →
        (l.foldl (fun hv crs =>
          if crs.axis_info.length = HORIZONTAL_AXIS_LENGTH then (crs, hv.2)
          else if crs.axis_info.length = VERTICAL_AXIS_LENGTH then (hv.1, crs)
          else hv) init).1 = init.1 by
      exact H _ _ h
    intro l
    induction l with
    | nil => intro init _; rfl
    | cons c cs ih =>
      intro init hno
      have hc : c.axis_info.length ≠ HORIZONTAL_AXIS_LENGTH :=
        hno c (List.mem_cons_self c cs)
      have hcs : ∀ sub ∈ cs, sub.axis_info.length ≠ HORIZONTAL_AXIS_LENGTH :=
        fun sub hs => hno sub (List.mem_cons_of_mem c hs)
      simp only [List.foldl_cons]
      rw [if_neg hc]
      by_cases hv : c.axis_info.length = VERTICAL_AXIS_LENGTH
      · rw [if_pos hv]
        exact ih _ hcs
      · rw [if_neg hv]
        exact ih _ hcs
  · intro h
    suffices H : ∀ (l : List CRS) (init : CRS × CRS),
        (∀ sub ∈ l, sub.axis_info.length ≠ VERTICAL_AXIS_LENGTH) →
        (l.foldl (fun hv crs =>
          if crs.axis_info.length = HORIZONTAL_AXIS_LENGTH then (crs, hv.2)
          else if crs.axis_info.length = VERTICAL_AXIS_LENGTH then (hv.1, crs)
          else hv) init).2 = init.2 by
      exact H _ _ h
    intro l
    induction l with
    | nil => intro init _; rfl
    | cons c cs ih =>
      intro init hno
      have hc : c.axis_info.length ≠ VERTICAL_AXIS_LENGTH :=
        hno c (List.mem_cons_self c cs)
      have hcs : ∀ sub ∈ cs, sub.axis_info.length ≠ VERTICAL_AXIS_LENGTH :=
        fun sub hs => hno sub (List.mem_cons_of_mem c hs)
      simp only [List.foldl_cons]
      by_cases hh : c.axis_info.length = HORIZONTAL_AXIS_LENGTH
      · rw [if_pos hh]
        exact ih _ hcs
      · rw [if_neg hh, if_neg hc]
        exact ih _ hcs

/-- Witness for the amended C5 at the concrete leg-less compound. -/
theorem compound_split_defaults_witness :
    (get_individual_crs_from_compound demoCompoundNoLegs).1 = demoCompoundNoLegs ∧
    (get_individual_crs_from_compound demoCompoundNoLegs).2 = demoCompoundNoLegs := by
  constructor
  · exact (compound_split_defaults demoCompoundNoLegs).1 (by
      intro sub hsub
      simp only [demoCompoundNoLegs, CRS.sub_crs_list, List.mem_singleton] at hsub
      subst hsub
      simp [CRS.axis_info, HORIZONTAL_AXIS_LENGTH])
  · exact (compound_split_defaults demoCompoundNoLegs).2 (by
      intro sub hsub
      simp only [demoCompoundNoLegs, CRS.sub_crs_list, List.mem_singleton] at hsub
      subst hsub
      simp [CRS.axis_info, VERTICAL_AXIS_LENGTH])

/-- Claim C1: when the axis check passes, the pair is not excluded and the
geodetic library returns a nonempty ranked candidate list, `get_transformer`
returns the first candidate that does not need an epoch when no epoch is
given; it fails with "Transformation is not possible without an input
epoch" when every candidate needs one; and it returns the top-ranked
candidate whenever an epoch is given. -/
theorem get_transformer_epoch_gating
    (lib : TransformerOracle) (cfg : CrsConfig) (source_crs target_crs : CRS)
    (epoch : Option ℚ) (sa ta : String) (tf0 : Transformer)
    (rest : List Transformer)
    (hax : ¬ source_crs.axis_info.length < target_crs.axis_info.length)
    (hsa : format_authority source_crs = Except.ok sa)
    (hta : format_authority target_crs = Except.ok ta)
    (hex : exclude_transformation cfg sa ta = false)
    (hlib : lib source_crs target_crs = tf0 :: rest) :
    (epoch = none → ∀ tf,
        List.find? (fun t => !needs_epoch t) (tf0 :: rest) = some tf →
        get_transformer lib cfg source_crs target_crs epoch = Except.ok tf) ∧
    ((epoch = none ∧ ∀ tf ∈ tf0 :: rest, needs_epoch tf = true) →
        get_transformer lib cfg source_crs target_crs epoch =
          Except.error (Err.transformationNotPossible source_crs.crs_str
            target_crs.crs_str
            "Transformation is not possible without an input epoch")) ∧
    (∀ e : ℚ, epoch = some e →
        get_transformer lib cfg source_crs target_crs epoch =
          Except.ok tf0) := by
  have hca : check_axis source_crs target_crs = Except.ok () := by
    unfold check_axis
    rw [if_neg hax]
  refine ⟨?_, ?_, ?_⟩
  · intro he tf hf
    subst he
    unfold get_transformer
    rw [hca]
    simp only [ok_bind]
    rw [hsa]
    simp only [ok_bind]
    rw [hta]
    simp only [ok_bind, hex]
    simp only [Bool.false_eq_true, if_false]
    rw [hlib]
    simp [hf]
  · rintro ⟨he, hall⟩
    subst he
    have hfind : List.find? (fun t => !needs_epoch t) (tf0 :: rest) = none := by
      rw [List.find?_eq_none]
      intro x hx
      simp [hall x hx]
    unfold get_transformer
    rw [hca]
    simp only [ok_bind]
    rw [hsa]
    simp only [ok_bind]
    rw [hta]
    simp only [ok_bind, hex]
    simp only [Bool.false_eq_true, if_false]
    rw [hlib]
    simp [hfind, hall tf0 (List.mem_cons_self tf0 rest)]
  · intro e he
    subst he
    unfold get_transformer
    rw [hca]
    simp only [ok_bind]
    rw [hsa]
    simp only [ok_bind]
    rw [hta]
    simp only [ok_bind, hex]
    simp only [Bool.false_eq_true, if_false]
    rw [hlib]
    rcases hf : List.find? (fun t => !needs_epoch t) (tf0 :: rest) with _ | tf
    · simp [hf]
    · simp [hf]

/-- Witness for C1: with the epoch-dependent candidate ranked first, the
epoch-less call selects the later epoch-free candidate and the call with an
epoch selects the top-ranked one. -/
theorem get_transformer_epoch_gating_witness :
    get_transformer demoLib demoCfgEmpty demoCrs3D demoCrs2D none =
      Except.ok demoTfStatic ∧
    get_transformer demoLib demoCfgEmpty demoCrs3D demoCrs2D (some 2010) =
      Except.ok demoTfDyn := by
  have h := get_transformer_epoch_gating demoLib demoCfgEmpty demoCrs3D
    demoCrs2D none "EPSG:7415" "EPSG:28992" demoTfDyn [demoTfStatic]
    (by decide) rfl rfl rfl rfl
  have h2 := get_transformer_epoch_gating demoLib demoCfgEmpty demoCrs3D
    demoCrs2D (some 2010) "EPSG:7415" "EPSG:28992" demoTfDyn [demoTfStatic]
    (by decide) rfl rfl rfl rfl
  constructor
  · refine h.1 rfl demoTfStatic ?_
    have hdyn : needs_epoch demoTfDyn = true := by
      simp [needs_epoch, demoTfDyn, demoCrsDyn, CRS.datum]
    have hstat : needs_epoch demoTfStatic = false := by
      simp [needs_epoch, demoTfStatic, demoCrs2D, CRS.datum]
    simp [List.find?, hdyn, hstat]
  · exact h2.2.2 2010 rfl

/-- An exclusion configuration matching the repository's tested pair:
EPSG:7415 → EPSG:28992 is excluded. -/
def demoCfgExclude : CrsConfig :=
  [("EPSG:7415", { exclude_transformations := ["EPSG:28992"] })]

/-- Counterexample to claim C8 as stated: at the excluded pair
EPSG:7415 → EPSG:28992 the selection does fail with
TransformationNotPossibleError, but the error carries the default reason
"no transformation path available" (the exclusion branch passes no reason),
not "excluded". -/
theorem exclusion_reason_counterexample :
    get_transformer demoLib demoCfgExclude demoCrs3D demoCrs2D none =
      Except.error (Err.transformationNotPossible "EPSG:7415" "EPSG:28992"
        "no transformation path available") ∧
    get_transformer demoLib demoCfgExclude demoCrs3D demoCrs2D none ≠
      Except.error (Err.transformationNotPossible "EPSG:7415" "EPSG:28992"
        "excluded") := by
  have hres : get_transformer demoLib demoCfgExclude demoCrs3D demoCrs2D none =
      Except.error (Err.transformationNotPossible "EPSG:7415" "EPSG:28992"
        "no transformation path available") := by
    unfold get_transformer check_axis
    simp [demoCrs3D, demoCrs2D, CRS.axis_info, CRS.to_authority,
      format_authority, exclude_transformation, demoCfgExclude, NO_PATH_REASON]
  refine ⟨hres, ?_⟩
  rw [hres]
  intro hcontra
  have := Except.error.inj hcontra
  simp only [Err.transformationNotPossible.injEq] at this
  exact absurd this.2.2 (by decide)

/-- Claim C8, amended: a pair in the exclusion table always makes
`get_transformer` fail with TransformationNotPossibleError (carrying the
default reason "no transformation path available"); membership in the table
is exactly the `exclude_transformation` test; and non-excluded pairs are
never rejected by this rule — selection proceeds to the candidate policy. -/
theorem exclusion_rejection :
    (∀ (lib : TransformerOracle) (cfg : CrsConfig) (source_crs target_crs : CRS)
        (epoch : Option ℚ) (sa ta : String),
      ¬ source_crs.axis_info.length < target_crs.axis_info.length →
      format_authority source_crs = Except.ok sa →
      format_authority target_crs = Except.ok ta →
      exclude_transformation cfg sa ta = true →
      get_transformer lib cfg source_crs target_crs epoch =
        Except.error (Err.transformationNotPossible sa ta NO_PATH_REASON)) ∧
    (∀ (cfg : CrsConfig) (s t : String),
      exclude_transformation cfg s t = true ↔
        ∃ entry, List.lookup s cfg = some entry ∧
          t ∈ entry.exclude_transformations) ∧
    (∀ (lib : TransformerOracle) (cfg : CrsConfig) (source_crs target_crs : CRS)
        (epoch : Option ℚ) (sa ta : String) (tf0 : Transformer)
        (rest : List Transformer),
      ¬ source_crs.axis_info.length < target_crs.axis_info.length →
      format_authority source_crs = Except.ok sa →
      format_authority target_crs = Except.ok ta →
      exclude_transformation cfg sa ta = false →
      lib source_crs target_crs = tf0 :: rest →
      (∃ tf ∈ tf0 :: rest,
          get_transformer lib cfg source_crs target_crs epoch = Except.ok tf) ∨
        get_transformer lib cfg source_crs target_crs epoch =
          Except.error (Err.transformationNotPossible source_crs.crs_str
            target_crs.crs_str
            "Transformation is not possible without an input epoch")) := by
  refine ⟨?_, ?_, ?_⟩
  · intro lib cfg source_crs target_crs epoch sa ta hax hsa hta hex
    have hca : check_axis source_crs target_crs = Except.ok () := by
      unfold check_axis
      rw [if_neg hax]
    unfold get_transformer
    rw [hca]
    simp only [ok_bind]
    rw [hsa]
    simp only [ok_bind]
    rw [hta]
    simp only [ok_bind, hex, if_true]
  · intro cfg s t
    unfold exclude_transformation
    rcases hl : List.lookup s cfg with _ | entry
    · simp
    · simp
  · intro lib cfg source_crs target_crs epoch sa ta tf0 rest hax hsa hta hex hlib
    have h := get_transformer_epoch_gating lib cfg source_crs target_crs epoch
      sa ta tf0 rest hax hsa hta hex hlib
    rcases epoch with _ | e
    · rcases hf : List.find? (fun t => !needs_epoch t) (tf0 :: rest) with _ | tf
      · right
        refine h.2.1 ⟨rfl, ?_⟩
        intro tf htf
        have := List.find?_eq_none.mp hf tf htf
        simpa using this
      · left
        exact ⟨tf, List.mem_of_find?_eq_some hf, h.1 rfl tf hf⟩
    · left
      exact ⟨tf0, List.mem_cons_self tf0 rest, h.2.2 e rfl⟩

/-- Witness for the amended C8: the excluded pair is rejected with the
default reason, and the same pair under an empty exclusion table proceeds
to candidate selection. -/
theorem exclusion_rejection_witness :
    get_transformer demoLib demoCfgExclude demoCrs3D demoCrs2D none =
      Except.error (Err.transformationNotPossible "EPSG:7415" "EPSG:28992"
        NO_PATH_REASON) ∧
    exclude_transformation demoCfgExclude "EPSG:7415" "EPSG:28992" = true ∧
    ((∃ tf ∈ [demoTfDyn, demoTfStatic],
        get_transformer demoLib demoCfgEmpty demoCrs3D demoCrs2D none =
          Except.ok tf) ∨
      get_transformer demoLib demoCfgEmpty demoCrs3D demoCrs2D none =
        Except.error (Err.transformationNotPossible "EPSG:7415" "EPSG:28992"
          "Transformation is not possible without an input epoch")) := by
  refine ⟨?_, ?_, ?_⟩
  · exact exclusion_rejection.1 demoLib demoCfgExclude demoCrs3D demoCrs2D none
      "EPSG:7415" "EPSG:28992" (by decide) rfl rfl rfl
  · exact (exclusion_rejection.2.1 demoCfgExclude "EPSG:7415" "EPSG:28992").mpr
      ⟨{ exclude_transformations := ["EPSG:28992"] }, rfl, by simp⟩
  · have h := exclusion_rejection.2.2 demoLib demoCfgEmpty demoCrs3D demoCrs2D
      none "EPSG:7415" "EPSG:28992" demoTfDyn [demoTfStatic] (by decide) rfl rfl
      rfl rfl
    simpa [demoCrs3D, demoCrs2D, CRS.crs_str] using h

/-- Counterexample to claim C3 as stated: a negative-infinite height is an
infinite height ordinate, yet it is not dropped — the endpoint raises the
response-validation error instead of returning the 2-ordinate position the
claim promises (the height test is `== float("inf")`, positive only). -/
theorem negative_inf_height_counterexample :
    handle_infinite_coordinates [PyVal.fin 1, PyVal.fin 2, PyVal.ninf] =
      Except.error
        { message := "Out of range float values are not JSON compliant",
          location := ["responseBody"] } ∧
    handle_infinite_coordinates [PyVal.fin 1, PyVal.fin 2, PyVal.ninf] ≠
      Except.ok [PyVal.fin 1, PyVal.fin 2] := by
  constructor
  · rfl
  · intro h
    exact Except.noConfusion h

/-- Claim C3, amended: a positive-infinite height ordinate is dropped,
giving a 2-ordinate position subject only to the horizontal infinity check;
any position accepted by the policy contains no ordinate of infinite
absolute value (no infinity is ever serialized); and a negative-infinite
height is not dropped but rejected with the response-validation error. -/
theorem infinite_coordinate_policy :
    (∀ x y : PyVal, handle_infinite_coordinates [x, y, PyVal.pinf] =
      (if pyAbs x = PyVal.pinf ∨ pyAbs y = PyVal.pinf then
        Except.error
          { message := "Out of range float values are not JSON compliant",
            location := ["responseBody"] }
      else Except.ok [x, y])) ∧
    (∀ (coords out : List PyVal),
      handle_infinite_coordinates coords = Except.ok out →
      ∀ v ∈ out, pyAbs v ≠ PyVal.pinf) ∧
    (∀ x y : PyVal, handle_infinite_coordinates [x, y, PyVal.ninf] =
      Except.error
        { message := "Out of range float values are not JSON compliant",
          location := ["responseBody"] }) := by
  refine ⟨?_, ?_, ?_⟩
  · intro x y
    simp [handle_infinite_coordinates, THREE_DIMENSIONAL]
  · intro coords out hok v hv
    unfold handle_infinite_coordinates at hok
    set stripped :=
      if coords.length = THREE_DIMENSIONAL ∧
          coords.getD 2 (PyVal.fin 0) = PyVal.pinf then
        coords.take 2
      else coords with hstr
    by_cases hany : stripped.any (fun x => pyAbs x = PyVal.pinf)
    · rw [if_pos hany] at hok
      exact Except.noConfusion hok
    · rw [if_neg hany] at hok
      have hout : stripped = out := Except.ok.inj hok
      intro hcontra
      exact hany (List.any_eq_true.mpr
        ⟨v, by rw [hout]; exact hv, by simp [hcontra]⟩)
  · intro x y
    simp [handle_infinite_coordinates, THREE_DIMENSIONAL, pyAbs]

/-- Witness for the amended C3: a finite position with a positive-infinite
height loses exactly the height; an accepted position contains no
infinities; a negative-infinite height is rejected. -/
theorem infinite_coordinate_policy_witness :
    handle_infinite_coordinates [PyVal.fin 1, PyVal.fin 2, PyVal.pinf] =
      Except.ok [PyVal.fin 1, PyVal.fin 2] ∧
    (∀ v ∈ [PyVal.fin 1, PyVal.fin 2], pyAbs v ≠ PyVal.pinf) ∧
    handle_infinite_coordinates [PyVal.fin 5, PyVal.fin 6, PyVal.ninf] =
      Except.error
        { message := "Out of range float values are not JSON compliant",
          location := ["responseBody"] } := by
  refine ⟨?_, ?_, ?_⟩
  · have h := infinite_coordinate_policy.1 (PyVal.fin 1) (PyVal.fin 2)
    simpa [pyAbs] using h
  · exact infinite_coordinate_policy.2.1 [PyVal.fin 1, PyVal.fin 2, PyVal.pinf]
      [PyVal.fin 1, PyVal.fin 2] (by
        have h := infinite_coordinate_policy.1 (PyVal.fin 1) (PyVal.fin 2)
        simpa [pyAbs] using h)
  · exact infinite_coordinate_policy.2.2 (PyVal.fin 5) (PyVal.fin 6)

/-- Every error `get_transformer` can raise is a
TransformationNotPossibleError or the TypeError of formatting a missing
authority; in particular it raises no ValueError. -/
lemma get_transformer_error_shape (lib : TransformerOracle) (cfg : CrsConfig)
    (source_crs target_crs : CRS) (epoch : Option ℚ) (e : Err)
    (h : get_transformer lib cfg source_crs target_crs epoch = Except.error e) :
    (∃ s t r, e = Err.transformationNotPossible s t r) ∨
      (∃ m, e = Err.typeError m) := by
  unfold get_transformer check_axis at h
  by_cases hax : source_crs.axis_info.length < target_crs.axis_info.length
  · rw [if_pos hax] at h
    simp only [error_bind] at h
    exact Or.inl ⟨_, _, _, (Except.error.inj h).symm⟩
  · rw [if_neg hax] at h
    simp only [ok_bind] at h
    rcases hsa : source_crs.to_authority with _ | ⟨sa1, sa2⟩
    · have hfs : format_authority source_crs =
          Except.error (Err.typeError "argument list unpacking of NoneType") := by
        unfold format_authority
        rw [hsa]
      rw [hfs] at h
      simp only [error_bind] at h
      exact Or.inr ⟨_, (Except.error.inj h).symm⟩
    · have hfs : format_authority source_crs = Except.ok (sa1 ++ ":" ++ sa2) := by
        unfold format_authority
        rw [hsa]
      rw [hfs] at h
      simp only [ok_bind] at h
      rcases hta : target_crs.to_authority with _ | ⟨ta1, ta2⟩
      · have hft : format_authority target_crs =
            Except.error (Err.typeError "argument list unpacking of NoneType") := by
          unfold format_authority
          rw [hta]
        rw [hft] at h
        simp only [error_bind] at h
        exact Or.inr ⟨_, (Except.error.inj h).symm⟩
      · have hft : format_authority target_crs = Except.ok (ta1 ++ ":" ++ ta2) := by
          unfold format_authority
          rw [hta]
        rw [hft] at h
        simp only [ok_bind] at h
        by_cases hex : exclude_transformation cfg (sa1 ++ ":" ++ sa2)
            (ta1 ++ ":" ++ ta2) = true
        · rw [if_pos hex] at h
          exact Or.inl ⟨_, _, _, (Except.error.inj h).symm⟩
        · rw [if_neg hex] at h
          rcases hlib : lib source_crs target_crs with _ | ⟨tf0, rest⟩
          · rw [hlib] at h
            exact Or.inl ⟨_, _, _, (Except.error.inj h).symm⟩
          · rw [hlib] at h
            rcases epoch with _ | ep
            · rcases hf : List.find? (fun tf => !needs_epoch tf) (tf0 :: rest)
                with _ | tf
              · simp only [hf] at h
                split at h
                · exact Or.inl ⟨_, _, _, (Except.error.inj h).symm⟩
                · exact Except.noConfusion h
              · simp only [hf] at h
                exact Except.noConfusion h
            · rcases hf : List.find? (fun tf => !needs_epoch tf) (tf0 :: rest)
                with _ | tf
              · simp only [hf] at h
                split at h
                · exact Or.inl ⟨_, _, _, (Except.error.inj h).symm⟩
                · exact Except.noConfusion h
              · simp only [hf] at h
                split at h
                · exact Or.inl ⟨_, _, _, (Except.error.inj h).symm⟩
                · exact Except.noConfusion h

/-- A transformer whose target CRS has a single axis, for exercising the
dimension guard. -/
def demoTfDim1 : Transformer :=
  { source_crs := some demoCrs3D,
    target_crs := some (CRS.mk ["Height"] (some ("EPSG", "5709")) false false []
      none "EPSG:5709" 7),
    operations := none,
    transform := fun _ => [5, 6, 7] }

/-- An oracle returning only the 1-axis-target transformer. -/
def demoLibDim1 : TransformerOracle := fun _ _ => [demoTfDim1]

/-- Claim C4 (code bug): the defensive dimension guard of `transform_crs`
tests `TWO_DIMENSIONAL > dim > THREE_DIMENSIONAL`, which no `dim` can
satisfy, so the simple transform never raises the dimension ValueError —
its only errors are selection errors and the missing-target-CRS ValueError —
and a target candidate with 1 axis produces an output instead of failing. -/
theorem dim_guard_never_fires :
    (∀ (lib : TransformerOracle) (cfg : CrsConfig) (pyRound : RoundOracle)
        (heightDigits : ℤ) (source_crs target_crs : CRS) (precision : Option ℤ)
        (epoch : Option ℚ) (val : List ℚ) (e : Err),
      transform_crs lib cfg pyRound heightDigits source_crs target_crs precision
          epoch val = Except.error e →
      (∃ s t r, e = Err.transformationNotPossible s t r) ∨
        (∃ m, e = Err.typeError m) ∨
        e = Err.valueError "transformer.target_crs is None") ∧
    transform_crs demoLibDim1 demoCfgEmpty demoRound 4 demoCrs3D demoCrs2D none
        none [1, 2] = Except.ok [5] := by
  constructor
  · intro lib cfg pyRound heightDigits source_crs target_crs precision epoch val
      e h
    unfold transform_crs at h
    rcases hgt : get_transformer lib cfg source_crs target_crs epoch
      with e' | tf
    · rw [hgt] at h
      simp only [error_bind] at h
      have he : e' = e := Except.error.inj h
      subst he
      rcases get_transformer_error_shape lib cfg source_crs target_crs epoch e'
        hgt with h1 | h2
      · exact Or.inl h1
      · exact Or.inr (Or.inl h2)
    · rw [hgt] at h
      simp only [ok_bind] at h
      split at h
      · exact Or.inr (Or.inr (Except.error.inj h).symm)
      · split at h
        · rename_i hcond
          exfalso
          have h2 := hcond.2.1
          have h3 := hcond.2.2
          simp only [TWO_DIMENSIONAL, THREE_DIMENSIONAL] at h2 h3
          omega
        · split at h
          · exact Except.noConfusion h
          · exact Except.noConfusion h
  · rfl

/-- Witness for C4's error-shape clause at a concrete failing selection:
with no candidates the simple transform fails with the selection error, and
that error is of the allowed shapes. -/
theorem dim_guard_never_fires_witness :
    (∃ s t r, Err.transformationNotPossible "EPSG:7931" "EPSG:28992"
        NO_PATH_REASON = Err.transformationNotPossible s t r) ∨
      (∃ m, Err.transformationNotPossible "EPSG:7931" "EPSG:28992"
        NO_PATH_REASON = Err.typeError m) ∨
      Err.transformationNotPossible "EPSG:7931" "EPSG:28992" NO_PATH_REASON =
        Err.valueError "transformer.target_crs is None" := by
  exact dim_guard_never_fires.1 (fun _ _ => []) demoCfgEmpty demoRound 4
    demoCrsDyn demoCrs2D none none [1, 2]
    (Err.transformationNotPossible "EPSG:7931" "EPSG:28992" NO_PATH_REASON) rfl

/-! ## Column structure of the zipped coordinates -/

lemma tail_getD {α : Type} (r : List α) (hr : r ≠ []) (i : Nat) (d : α) :
    r.tail.getD i d = r.getD (i + 1) d := by
  cases r with
  | nil => exact absurd rfl hr
  | cons a as => rfl

lemma filterMap_head_eq_getD (rs : List (List Coords))
    (h : ∀ r ∈ rs, r ≠ []) :
    rs.filterMap List.head? = rs.map (fun r => r.getD 0 (Coords.num 0)) := by
  induction rs with
  | nil => rfl
  | cons r rest ih =>
    have hr : r ≠ [] := h r (List.mem_cons_self r rest)
    have hrest : ∀ x ∈ rest, x ≠ [] := fun x hx =>
      h x (List.mem_cons_of_mem r hx)
    cases r with
    | nil => exact absurd rfl hr
    | cons a as =>
      simp only [List.filterMap_cons, List.head?_cons, List.map_cons,
        List.getD_cons_zero]
      rw [ih hrest]

/-- `list(zip(*rows))` of rows whose minimum length is `w` is the list of
the first `w` columns. -/
lemma pyZipStar_cols (w : Nat) :
    ∀ (rs : List (List Coords)), rs ≠ [] → (∀ r ∈ rs, w ≤ r.length) →
    (∃ r ∈ rs, r.length = w) →
    pyZipStar rs =
      (List.range w).map (fun i => rs.map (fun r => r.getD i (Coords.num 0))) := by
  induction w with
  | zero =>
    intro rs hne hmin hex
    obtain ⟨r, hr, hrlen⟩ := hex
    have hrnil : r = [] := List.length_eq_zero.mp hrlen
    cases rs with
    | nil => exact absurd rfl hne
    | cons r0 rest =>
      rw [pyZipStar_cons]
      rw [if_neg (by
        intro hall
        rw [List.all_eq_true] at hall
        have := hall r hr
        rw [hrnil] at this
        simp at this)]
      simp
  | succ w ih =>
    intro rs hne hmin hex
    cases rs with
    | nil => exact absurd rfl hne
    | cons r0 rest =>
      have hallne : ∀ r ∈ r0 :: rest, r ≠ [] := by
        intro r hr hnil
        have := hmin r hr
        rw [hnil] at this
        simp at this
      rw [pyZipStar_cons]
      rw [if_pos (by
        rw [List.all_eq_true]
        intro r hr
        have := hallne r hr
        simpa using this)]
      have htails_ne : (r0 :: rest).map List.tail ≠ [] := by simp
      have htails_min : ∀ t ∈ (r0 :: rest).map List.tail, w ≤ t.length := by
        intro t ht
        rw [List.mem_map] at ht
        obtain ⟨r, hr, hrt⟩ := ht
        subst hrt
        have hlen := hmin r hr
        have : r.tail.length = r.length - 1 := List.length_tail r
        omega
      have htails_ex : ∃ t ∈ (r0 :: rest).map List.tail, t.length = w := by
        obtain ⟨r, hr, hrlen⟩ := hex
        refine ⟨r.tail, List.mem_map_of_mem List.tail hr, ?_⟩
        have : r.tail.length = r.length - 1 := List.length_tail r
        omega
      rw [ih ((r0 :: rest).map List.tail) htails_ne htails_min htails_ex]
      rw [filterMap_head_eq_getD (r0 :: rest) hallne]
      have hswap : ∀ i : Nat,
          ((r0 :: rest).map List.tail).map (fun r => r.getD i (Coords.num 0)) =
            (r0 :: rest).map (fun r => r.getD (i + 1) (Coords.num 0)) := by
        intro i
        rw [List.map_map]
        apply List.map_congr_left
        intro r hr
        simp only [Function.comp_apply]
        exact tail_getD r (hallne r hr) i (Coords.num 0)
      rw [List.range_succ_eq_map]
      conv_rhs => rw [List.map_cons]
      congr 1
      rw [List.map_map]
      apply List.map_congr_left
      intro i _
      simp only [Function.comp_apply]
      exact hswap i

@[simp]
lemma pure_eq_ok {ε α : Type} (a : α) :
    (pure a : Except ε α) = Except.ok a := rfl

/-- `column_nums` succeeds on an all-numeric column. -/
lemma column_nums_map_num (l : List ℚ) :
    column_nums (l.map Coords.num) = Except.ok l := by
  induction l with
  | nil => rfl
  | cons x xs ih =>
    unfold column_nums at ih ⊢
    simp only [List.map_cons, List.mapM_cons, ih, ok_bind, pure_eq_ok]

/-- Reading a column of an all-numeric position list. -/
lemma column_nums_of_num_positions (qs : List (List ℚ)) (i : Nat) :
    column_nums ((qs.map (fun q => q.map Coords.num)).map
        (fun r => r.getD i (Coords.num 0))) =
      Except.ok (column qs i) := by
  have hcol : (qs.map (fun q => q.map Coords.num)).map
      (fun r => r.getD i (Coords.num 0)) = (column qs i).map Coords.num := by
    unfold column
    rw [List.map_map, List.map_map]
    apply List.map_congr_left
    intro q _
    simp only [Function.comp_apply]
    exact List.getD_map q 0 Coords.num
  rw [hcol, column_nums_map_num]

lemma pyMin_of_ne_nil (l : List ℚ) (h : l ≠ []) :
    pyMin l = Except.ok (listMin l) := by
  cases l with
  | nil => exact absurd rfl h
  | cons x xs => rfl

lemma pyMax_of_ne_nil (l : List ℚ) (h : l ≠ []) :
    pyMax l = Except.ok (listMax l) := by
  cases l with
  | nil => exact absurd rfl h
  | cons x xs => rfl

/-- Lifting the column facts from rational positions to their `Coords`
renderings. -/
lemma rows_facts (qs : List (List ℚ)) (w : Nat) (hne : qs ≠ [])
    (hmin : ∀ q ∈ qs, w ≤ q.length) (hex : ∃ q ∈ qs, q.length = w) :
    qs.map (fun q => q.map Coords.num) ≠ [] ∧
    (∀ r ∈ qs.map (fun q => q.map Coords.num), w ≤ r.length) ∧
    (∃ r ∈ qs.map (fun q => q.map Coords.num), r.length = w) := by
  refine ⟨by simpa using hne, ?_, ?_⟩
  · intro r hr
    rw [List.mem_map] at hr
    obtain ⟨q, hq, rfl⟩ := hr
    simpa using hmin q hq
  · obtain ⟨q, hq, hql⟩ := hex
    exact ⟨q.map Coords.num, List.mem_map_of_mem _ hq, by simpa using hql⟩

lemma column_ne_nil (qs : List (List ℚ)) (hne : qs ≠ []) (i : Nat) :
    column qs i ≠ [] := by
  unfold column
  simpa using hne

/-- `get_bbox_from_coordinates` on positions of minimum width 2 (with a
2-wide position present): the 2D envelope over the first two columns. -/
lemma get_bbox_cols2 (coordinates : List Coords) (qs : List (List ℚ))
    (hexp : explode coordinates = qs.map (fun q => q.map Coords.num))
    (hne : qs ≠ [])
    (hmin : ∀ q ∈ qs, 2 ≤ q.length)
    (h2 : ∃ q ∈ qs, q.length = 2) :
    get_bbox_from_coordinates coordinates =
      Except.ok [listMin (column qs 0), listMin (column qs 1),
        listMax (column qs 0), listMax (column qs 1)] := by
  obtain ⟨hrs_ne, hrs_min, hrs_ex⟩ := rows_facts qs 2 hne hmin h2
  have hcols := pyZipStar_cols 2 (qs.map (fun q => q.map Coords.num)) hrs_ne
    hrs_min hrs_ex
  unfold get_bbox_from_coordinates
  rw [hexp, hcols]
  have hr2 : List.range 2 = [0, 1] := rfl
  rw [hr2]
  simp only [List.map_cons, List.map_nil, List.length_cons, List.length_nil]
  rw [if_pos (by decide)]
  simp only [List.getD_cons_zero, List.getD_cons_succ]
  rw [column_nums_of_num_positions qs 0]
  simp only [ok_bind]
  rw [column_nums_of_num_positions qs 1]
  simp only [ok_bind]
  rw [pyMin_of_ne_nil (column qs 0) (column_ne_nil qs hne 0)]
  simp only [ok_bind]
  rw [pyMin_of_ne_nil (column qs 1) (column_ne_nil qs hne 1)]
  simp only [ok_bind]
  rw [pyMax_of_ne_nil (column qs 0) (column_ne_nil qs hne 0)]
  simp only [ok_bind]
  rw [pyMax_of_ne_nil (column qs 1) (column_ne_nil qs hne 1)]
  simp only [ok_bind, pure_eq_ok]

/-- `get_bbox_from_coordinates` on uniformly 3-wide positions: the 3D
envelope. -/
lemma get_bbox_cols3 (coordinates : List Coords) (qs : List (List ℚ))
    (hexp : explode coordinates = qs.map (fun q => q.map Coords.num))
    (hne : qs ≠ [])
    (hmin : ∀ q ∈ qs, 3 ≤ q.length)
    (h3 : ∃ q ∈ qs, q.length = 3) :
    get_bbox_from_coordinates coordinates =
      Except.ok [listMin (column qs 0), listMin (column qs 1),
        listMin (column qs 2), listMax (column qs 0), listMax (column qs 1),
        listMax (column qs 2)] := by
  obtain ⟨hrs_ne, hrs_min, hrs_ex⟩ := rows_facts qs 3 hne hmin h3
  have hcols := pyZipStar_cols 3 (qs.map (fun q => q.map Coords.num)) hrs_ne
    hrs_min hrs_ex
  unfold get_bbox_from_coordinates
  rw [hexp, hcols]
  have hr3 : List.range 3 = [0, 1, 2] := rfl
  rw [hr3]
  simp only [List.map_cons, List.map_nil, List.length_cons, List.length_nil]
  rw [if_neg (by decide)]
  rw [if_pos (by decide)]
  simp only [List.getD_cons_zero, List.getD_cons_succ]
  rw [column_nums_of_num_positions qs 0]
  simp only [ok_bind]
  rw [column_nums_of_num_positions qs 1]
  simp only [ok_bind]
  rw [column_nums_of_num_positions qs 2]
  simp only [ok_bind]
  rw [pyMin_of_ne_nil (column qs 0) (column_ne_nil qs hne 0)]
  simp only [ok_bind]
  rw [pyMin_of_ne_nil (column qs 1) (column_ne_nil qs hne 1)]
  simp only [ok_bind]
  rw [pyMin_of_ne_nil (column qs 2) (column_ne_nil qs hne 2)]
  simp only [ok_bind]
  rw [pyMax_of_ne_nil (column qs 0) (column_ne_nil qs hne 0)]
  simp only [ok_bind]
  rw [pyMax_of_ne_nil (column qs 1) (column_ne_nil qs hne 1)]
  simp only [ok_bind]
  rw [pyMax_of_ne_nil (column qs 2) (column_ne_nil qs hne 2)]
  simp only [ok_bind, pure_eq_ok]

/-- `get_bbox_from_coordinates` on uniformly `w`-wide positions with
`w ∉ {2,3}`: the dimensionality ValueError. -/
lemma get_bbox_colsw (coordinates : List Coords) (qs : List (List ℚ)) (w : Nat)
    (hexp : explode coordinates = qs.map (fun q => q.map Coords.num))
    (hne : qs ≠ [])
    (huni : ∀ q ∈ qs, q.length = w)
    (hw2 : w ≠ 2) (hw3 : w ≠ 3) :
    get_bbox_from_coordinates coordinates =
      Except.error ("expected dimension of coordinates is either 2 or 3, got " ++
        toString w) := by
  have hmin : ∀ q ∈ qs, w ≤ q.length := fun q hq => le_of_eq (huni q hq).symm
  have hex : ∃ q ∈ qs, q.length = w := by
    cases qs with
    | nil => exact absurd rfl hne
    | cons q rest => exact ⟨q, List.mem_cons_self q rest, huni q (List.mem_cons_self q rest)⟩
  obtain ⟨hrs_ne, hrs_min, hrs_ex⟩ := rows_facts qs w hne hmin hex
  have hcols := pyZipStar_cols w (qs.map (fun q => q.map Coords.num)) hrs_ne
    hrs_min hrs_ex
  unfold get_bbox_from_coordinates
  rw [hexp, hcols]
  have hlen : ((List.range w).map (fun i =>
      (qs.map (fun q => q.map Coords.num)).map
        (fun r => r.getD i (Coords.num 0)))).length = w := by
    rw [List.length_map, List.length_range]
  rw [if_neg (by rw [hlen]; simpa [TWO_DIMENSIONAL] using hw2)]
  rw [if_neg (by rw [hlen]; simpa [THREE_DIMENSIONAL] using hw3)]
  rw [hlen]

/-- Claim C9: on a nonempty collection whose flattened positions are
uniformly 2-wide, `get_bbox_from_coordinates` returns the 2D envelope
(min_x, min_y, max_x, max_y); uniformly 3-wide gives the 3D envelope; any
other uniform width raises the dimensionality ValueError. -/
theorem bbox_envelope_spec :
    (∀ (coordinates : List Coords) (qs : List (List ℚ)),
      explode coordinates = qs.map (fun q => q.map Coords.num) →
      qs ≠ [] → (∀ q ∈ qs, q.length = 2) →
      get_bbox_from_coordinates coordinates =
        Except.ok [listMin (column qs 0), listMin (column qs 1),
          listMax (column qs 0), listMax (column qs 1)]) ∧
    (∀ (coordinates : List Coords) (qs : List (List ℚ)),
      explode coordinates = qs.map (fun q => q.map Coords.num) →
      qs ≠ [] → (∀ q ∈ qs, q.length = 3) →
      get_bbox_from_coordinates coordinates =
        Except.ok [listMin (column qs 0), listMin (column qs 1),
          listMin (column qs 2), listMax (column qs 0), listMax (column qs 1),
          listMax (column qs 2)]) ∧
    (∀ (coordinates : List Coords) (qs : List (List ℚ)) (w : Nat),
      explode coordinates = qs.map (fun q => q.map Coords.num) →
      qs ≠ [] → (∀ q ∈ qs, q.length = w) → w ≠ 2 → w ≠ 3 →
      get_bbox_from_coordinates coordinates =
        Except.error
          ("expected dimension of coordinates is either 2 or 3, got " ++
            toString w)) := by
  refine ⟨?_, ?_, ?_⟩
  · intro coordinates qs hexp hne huni
    refine get_bbox_cols2 coordinates qs hexp hne
      (fun q hq => le_of_eq (huni q hq).symm) ?_
    cases qs with
    | nil => exact absurd rfl hne
    | cons q rest =>
      exact ⟨q, List.mem_cons_self q rest, huni q (List.mem_cons_self q rest)⟩
  · intro coordinates qs hexp hne huni
    refine get_bbox_cols3 coordinates qs hexp hne
      (fun q hq => le_of_eq (huni q hq).symm) ?_
    cases qs with
    | nil => exact absurd rfl hne
    | cons q rest =>
      exact ⟨q, List.mem_cons_self q rest, huni q (List.mem_cons_self q rest)⟩
  · intro coordinates qs w hexp hne huni hw2 hw3
    exact get_bbox_colsw coordinates qs w hexp hne huni hw2 hw3

/-- Nested demo collections for the bbox witnesses. -/
def demoNested2D : List Coords :=
  [Coords.arr [Coords.num 1, Coords.num 2], Coords.arr [Coords.num 3, Coords.num 4]]

def demoNested3D : List Coords :=
  [Coords.arr [Coords.num 1, Coords.num 2, Coords.num 5],
   Coords.arr [Coords.num 3, Coords.num 4, Coords.num 6]]

def demoNested4W : List Coords :=
  [Coords.arr [Coords.num 1, Coords.num 2, Coords.num 3, Coords.num 4]]

def demoNestedMixed : List Coords :=
  [Coords.arr [Coords.num 1, Coords.num 2],
   Coords.arr [Coords.num 3, Coords.num 4, Coords.num 5]]

/-- Witness for C9 on concrete 2D, 3D and 4-wide collections. -/
theorem bbox_envelope_spec_witness :
    get_bbox_from_coordinates demoNested2D = Except.ok [1, 2, 3, 4] ∧
    get_bbox_from_coordinates demoNested3D = Except.ok [1, 2, 5, 3, 4, 6] ∧
    get_bbox_from_coordinates demoNested4W =
      Except.error "expected dimension of coordinates is either 2 or 3, got 4" := by
  refine ⟨?_, ?_, ?_⟩
  · have h := bbox_envelope_spec.1 demoNested2D [[1, 2], [3, 4]]
      (by simp [demoNested2D, explode]) (by simp) (by decide)
    rw [h]
    norm_num [column, listMin, listMax]
  · have h := bbox_envelope_spec.2.1 demoNested3D [[1, 2, 5], [3, 4, 6]]
      (by simp [demoNested3D, explode]) (by simp) (by decide)
    rw [h]
    norm_num [column, listMin, listMax]
  · have h := bbox_envelope_spec.2.2 demoNested4W [[1, 2, 3, 4]] 4
      (by simp [demoNested4W, explode]) (by simp) (by decide) (by decide)
      (by decide)
    rw [h]
    rfl

/-- Claim C10: when the flattened positions mix 2-wide and 3-wide numeric
tuples, `get_bbox_from_coordinates` raises nothing — the columnwise zip
truncates to the shortest width, so it returns the 2D envelope and discards
every z ordinate. -/
theorem bbox_mixed_dimension_truncation :
    ∀ (coordinates : List Coords) (qs : List (List ℚ)),
      explode coordinates = qs.map (fun q => q.map Coords.num) →
      (∀ q ∈ qs, q.length = 2 ∨ q.length = 3) →
      (∃ q ∈ qs, q.length = 2) → (∃ q ∈ qs, q.length = 3) →
      get_bbox_from_coordinates coordinates =
        Except.ok [listMin (column qs 0), listMin (column qs 1),
          listMax (column qs 0), listMax (column qs 1)] := by
  intro coordinates qs hexp hboth h2 h3
  have hne : qs ≠ [] := by
    obtain ⟨q, hq, _⟩ := h2
    intro hnil
    rw [hnil] at hq
    exact List.not_mem_nil q hq
  refine get_bbox_cols2 coordinates qs hexp hne ?_ h2
  intro q hq
  rcases hboth q hq with h | h <;> omega

/-- Witness for C10 on a concrete mixed collection: the 3-wide position's
z ordinate is silently discarded. -/
theorem bbox_mixed_dimension_truncation_witness :
    get_bbox_from_coordinates demoNestedMixed = Except.ok [1, 2, 3, 4] := by
  have h := bbox_mixed_dimension_truncation demoNestedMixed [[1, 2], [3, 4, 5]]
    (by simp [demoNestedMixed, explode]) (by decide)
    ⟨[1, 2], by simp, by rfl⟩ ⟨[3, 4, 5], by simp, by rfl⟩
  rw [h]
  norm_num [column, listMin, listMax]

/-- The per-position combined transform as claim C2 states it, written from
the spec's words for comparison with `transform_compound_crs`: both
candidates applied to the input built by the section-4.4 rules
(`build_input_coord`, which pads 2D input with a 0.0 height before the
epoch). -/
def transform_compound_crs_claimed (pyRound : RoundOracle) (heightDigits : ℤ)
    (h_transformer v_transformer : Transformer) (precision : Option ℤ)
    (epoch : Option ℚ) (val : List ℚ) : List ℚ :=
  let input := build_input_coord val epoch
  let h := (h_transformer.transform input).map
    (fun x => my_round pyRound x precision)
  let v := (v_transformer.transform input).map
    (fun x => my_round pyRound x (some heightDigits))
  h.take 2 ++ ((v.drop 2).take 1)

/-- A transformer echoing its input ordinates (identity-like), with an
identified source CRS and a static target. -/
def demoTfEcho : Transformer :=
  { source_crs := some demoCrs2D, target_crs := some demoCrs2D,
    operations := none,
    transform := fun input => input.map (fun o => o.getD 0) }

/-- An oracle always ranking the echo transformer alone. -/
def demoLibEcho : TransformerOracle := fun _ _ => [demoTfEcho]

/-- Counterexample to claim C2 as stated: for the compound target EPSG:7415
with a 2D input position and an epoch, the built per-position function
applies the candidates to `(x, y, epoch)` — the epoch is appended directly
with no 0.0 height padding — so with echo transformers the output height is
the epoch 2000, while the claimed section-4.4 input construction
`(x, y, 0.0, epoch)` would give height 0. -/
theorem compound_epoch_padding_counterexample :
    ((get_transform_crs_fun demoLibEcho demoCfgEmpty demoRound 4 demoCrsDyn
        demoCrs3D none (some 2000)) >>= fun f => f [1, 2]) =
      Except.ok [1, 2, 2000] ∧
    transform_compound_crs_claimed demoRound 4 demoTfEcho demoTfEcho none
        (some 2000) [1, 2] = [1, 2, 0] ∧
    ([1, 2, 2000] : List ℚ) ≠ [1, 2, 0] := by
  refine ⟨rfl, rfl, by decide⟩

/-- Claim C2, amended: for every transform built with a compound target CRS
and a non-geocentric source CRS (distinct objects), the per-position
function applies the horizontal and the vertical candidate to the same
input position — the position with the epoch appended directly when present
(no 0.0 height padding for 2D input) — and returns the horizontal output's
x,y rounded to the horizontal precision concatenated with the vertical
output's z rounded to the fixed height digit count; the vertical candidate
is the direct vertical-pair selection, falling back to selection over the
whole compound pair exactly when the vertical selection raises
TransformationNotPossibleError or yields a transformer whose (present)
source CRS has no authority code. -/
theorem compound_transform_behaviour
    (lib : TransformerOracle) (cfg : CrsConfig) (pyRound : RoundOracle)
    (heightDigits : ℤ) (source_crs target_crs : CRS) (precision : Option ℤ)
    (epoch : Option ℚ) (f : List ℚ → Except Err (List ℚ))
    (hid : source_crs.obj_id ≠ target_crs.obj_id)
    (hcmp : target_crs.is_compound = true)
    (hgeo : source_crs.is_geocentric = false)
    (hok : get_transform_crs_fun lib cfg pyRound heightDigits source_crs
      target_crs precision epoch = Except.ok f) :
    ∃ h_transformer v_transformer : Transformer,
      get_transformer lib cfg
          (if source_crs.is_compound then
            get_individual_crs_from_compound source_crs
          else (source_crs, source_crs)).1
          (get_individual_crs_from_compound target_crs).1 epoch =
        Except.ok h_transformer ∧
      ((∃ v, get_transformer lib cfg
            (if source_crs.is_compound then
              get_individual_crs_from_compound source_crs
            else (source_crs, source_crs)).2
            (get_individual_crs_from_compound target_crs).2 epoch =
          Except.ok v ∧
          vertical_source_unidentified v = false ∧ v_transformer = v) ∨
        (((∃ s t r, get_transformer lib cfg
              (if source_crs.is_compound then
                get_individual_crs_from_compound source_crs
              else (source_crs, source_crs)).2
              (get_individual_crs_from_compound target_crs).2 epoch =
            Except.error (Err.transformationNotPossible s t r)) ∨
          (∃ v, get_transformer lib cfg
              (if source_crs.is_compound then
                get_individual_crs_from_compound source_crs
              else (source_crs, source_crs)).2
              (get_individual_crs_from_compound target_crs).2 epoch =
            Except.ok v ∧ vertical_source_unidentified v = true)) ∧
          get_transformer lib cfg source_crs target_crs epoch =
            Except.ok v_transformer)) ∧
      (∀ val : List ℚ,
        f val = Except.ok (
          ((h_transformer.transform (compound_input epoch val)).map
            (fun x => my_round pyRound x precision)).take 2 ++
          (((v_transformer.transform (compound_input epoch val)).map
            (fun x => my_round pyRound x (some heightDigits))).drop 2).take 1)) := by
  unfold get_transform_crs_fun at hok
  rw [if_pos ⟨hid, by simp [hcmp], by simp [hgeo]⟩] at hok
  rcases hca : check_axis source_crs target_crs with e | u
  · rw [hca] at hok
    exact Except.noConfusion hok
  · rw [hca] at hok
    dsimp only at hok
    rcases hh : get_transformer lib cfg
        (if source_crs.is_compound then
          get_individual_crs_from_compound source_crs
        else (source_crs, source_crs)).1
        (get_individual_crs_from_compound target_crs).1 epoch with e | hT
    · rw [hh] at hok
      exact Except.noConfusion hok
    · rw [hh] at hok
      dsimp only at hok
      rcases hv : get_transformer lib cfg
          (if source_crs.is_compound then
            get_individual_crs_from_compound source_crs
          else (source_crs, source_crs)).2
          (get_individual_crs_from_compound target_crs).2 epoch with e | v
      · rw [hv] at hok
        cases e with
        | transformationNotPossible s t r =>
          rcases hfb : get_transformer lib cfg source_crs target_crs epoch
            with e' | vT
          · rw [hfb] at hok
            exact Except.noConfusion hok
          · rw [hfb] at hok
            refine ⟨hT, vT, rfl, Or.inr ⟨Or.inl ⟨s, t, r, rfl⟩, rfl⟩, ?_⟩
            intro val
            have hf : f = fun val => Except.ok (transform_compound_crs pyRound
              heightDigits hT vT precision epoch val) :=
              (Except.ok.inj hok).symm
            rw [hf]
            rfl
        | unknownCrs =>
          exfalso
          rcases get_transformer_error_shape lib cfg _ _ epoch _ hv with
            ⟨s, t, r, habs⟩ | ⟨m, habs⟩ <;> exact Err.noConfusion habs
        | valueError m =>
          exact Except.noConfusion hok
        | typeError m =>
          exact Except.noConfusion hok
      · rw [hv] at hok
        dsimp only at hok
        by_cases hvu : vertical_source_unidentified v = true
        · rw [if_pos hvu] at hok
          rcases hfb : get_transformer lib cfg source_crs target_crs epoch
            with e' | vT
          · rw [hfb] at hok
            exact Except.noConfusion hok
          · rw [hfb] at hok
            refine ⟨hT, vT, rfl, Or.inr ⟨Or.inr ⟨v, rfl, hvu⟩, rfl⟩, ?_⟩
            intro val
            have hf : f = fun val => Except.ok (transform_compound_crs pyRound
              heightDigits hT vT precision epoch val) :=
              (Except.ok.inj hok).symm
            rw [hf]
            rfl
        · rw [if_neg hvu] at hok
          have hvu' : vertical_source_unidentified v = false := by
            revert hvu
            cases vertical_source_unidentified v <;> simp
          refine ⟨hT, v, rfl, Or.inl ⟨v, rfl, hvu', rfl⟩, ?_⟩
          intro val
          have hf : f = fun val => Except.ok (transform_compound_crs pyRound
            heightDigits hT v precision epoch val) :=
            (Except.ok.inj hok).symm
          rw [hf]
          rfl

/-- Witness for the amended C2: building the transform for the compound
target EPSG:7415 from the 3D source EPSG:7931 with epoch 2000 succeeds, and
applying it to the 2D position (10, 20) yields (10, 20, 2000) — the epoch
value flows into the height slot because the input is (10, 20, 2000). -/
theorem compound_transform_behaviour_witness :
    ((get_transform_crs_fun demoLibEcho demoCfgEmpty demoRound 4 demoCrsDyn
        demoCrs3D none (some 2000)) >>= fun f => f [10, 20]) =
      Except.ok [10, 20, 2000] := by
  obtain ⟨hT, vT, hhsel, hvsel, hfun⟩ :=
    compound_transform_behaviour demoLibEcho demoCfgEmpty demoRound 4
      demoCrsDyn demoCrs3D none (some 2000)
      (fun val => Except.ok (transform_compound_crs demoRound 4 demoTfEcho
        demoTfEcho none (some 2000) val))
      (by decide) rfl rfl rfl
  have e1 : get_transformer demoLibEcho demoCfgEmpty
      (if demoCrsDyn.is_compound then
        get_individual_crs_from_compound demoCrsDyn
      else (demoCrsDyn, demoCrsDyn)).1
      (get_individual_crs_from_compound demoCrs3D).1 (some 2000) =
      Except.ok demoTfEcho := rfl
  have e2 : get_transformer demoLibEcho demoCfgEmpty
      (if demoCrsDyn.is_compound then
        get_individual_crs_from_compound demoCrsDyn
      else (demoCrsDyn, demoCrsDyn)).2
      (get_individual_crs_from_compound demoCrs3D).2 (some 2000) =
      Except.ok demoTfEcho := rfl
  have hTeq : demoTfEcho = hT := by
    rw [e1] at hhsel
    exact Except.ok.inj hhsel
  rcases hvsel with ⟨v, hv1, hv2, hv3⟩ | ⟨habs, hfb⟩
  · have hveq : demoTfEcho = v := by
      rw [e2] at hv1
      exact Except.ok.inj hv1
    subst hTeq
    rw [hv3, ← hveq] at hfun
    exact hfun [10, 20]
  · exfalso
    rcases habs with ⟨s, t, r, habs⟩ | ⟨v, hvok, hvu⟩
    · rw [e2] at habs
      exact Except.noConfusion habs
    · rw [e2] at hvok
      have : demoTfEcho = v := Except.ok.inj hvok
      rw [← this] at hvu
      exact Bool.noConfusion hvu

end CTA
